import Mathlib

/-!
Verification of the chatgpt prow external plugin
(task selection, prompt assembly, chunking, dispatch).

Go byte strings are embedded as `List Char` (one `Char` per byte);
Go maps keyed by strings are embedded as association lists.
-/

deriving instance DecidableEq for Except

namespace Chatgpt

/-! ## Chunker (`splitUserMessage` and the `maxTokens` table) -/

/-- Modelled from the spec: the constant `splitorHoldingByteCount` (the
"small reserved margin for framing text" of the chunker) is not under
`src/`; only its use site in `splitUserMessage` is.  It is modelled as a
positive constant. -/
def splitorHoldingByteCount : Nat := 100

/-- The per-model maximum-context-size table `maxTokens` from the splitter
file, with the go-openai model-name constants inlined. -/
def maxTokens : List (String × Nat) :=
  [("code-davinci-002", 8001),
   ("gpt-3.5-turbo", 4096),
   ("gpt-3.5-turbo-0301", 4096),
   ("text-davinci-002", 4097),
   ("text-davinci-003", 4097),
   ("gpt-4", 8192),
   ("gpt-4-0314", 8192),
   ("gpt-4-32k", 32768),
   ("gpt-4-32k-0314", 32768)]

/-- Go slice expression `s[a:b]` on a byte string. -/
def goSlice (s : List Char) (a b : Nat) : List Char :=
  (s.drop a).take (b - a)

/-- Go `strings.Join(lines, "\n")` on byte strings. -/
def joinNL : List (List Char) → List Char
  | [] => []
  | [x] => x
  | x :: y :: ys => x ++ '\n' :: joinNL (y :: ys)

/-- The `"PART %d/%d"` flag of `splitUserMessage` (`i` already 1-based). -/
def partFlag (i partCount : Nat) : String :=
  "PART " ++ Nat.repr i ++ "/" ++ Nat.repr partCount

/-- The acknowledge-and-wait instruction line prepended to every non-final
chunk by `splitUserMessage`. -/
def ackLine (flag : String) : String :=
  "Do not answer yet. This is just another part of the text I want to send you. Just receive and acknowledge as \"" ++ flag ++ " received\" and wait for the next part."

/-- The `[START <flag>]` marker line. -/
def startMarker (flag : String) : String := "[START " ++ flag ++ "]"

/-- The `[END <flag>]` marker line. -/
def endMarker (flag : String) : String := "[END " ++ flag ++ "]"

/-- The final-chunk instruction line of `splitUserMessage`. -/
def allSentLine : String :=
  "ALL PARTS SENT. Now you can continue processing the request."

/-- The `chunkMessageLines` built for loop index `i` of `splitUserMessage`
(before joining with newlines). -/
def chunkMessageLines (messageText : List Char) (splitLen partCount i : Nat) :
    List (List Char) :=
  let isLast := i = partCount - 1
  let flag := partFlag (i + 1) partCount
  let startPos := splitLen * i
  let endPos := if isLast then messageText.length else startPos + splitLen
  (if isLast then [] else [(ackLine flag).toList]) ++
    [(startMarker flag).toList,
     goSlice messageText startPos endPos,
     (endMarker flag).toList] ++
    (if isLast then [allSentLine.toList] else [])

/-- `splitUserMessage` from the splitter file.  The Go `int` subtraction
`maxTokens[model] - splitorHoldingByteCount` is carried out in `Int`
(a model name absent from the map yields the zero value `0`); the chunk
loop is expressed as a map over `List.range partCount`.  (When
`splitLen = 0` and the message is non-empty the Go code would crash on a
division by zero; that case is unreachable for every model of the table
since all table entries exceed the margin, and `Nat` division by zero
stands in for it here.) -/
def splitUserMessage (messageText : List Char) (model : String) : List (List Char) :=
  let splitLen : Int :=
    (((maxTokens.lookup model).getD 0 : Nat) : Int) - (splitorHoldingByteCount : Int)
  if splitLen < 0 then
    []
  else
    let sl := splitLen.toNat
    if messageText.length ≤ sl then
      [messageText]
    else
      let pc0 := messageText.length / sl
      let partCount := if pc0 * sl < messageText.length then pc0 + 1 else pc0
      (List.range partCount).map fun i =>
        joinNL (chunkMessageLines messageText sl partCount i)

/-- The body slice carried by chunk `i` of `N` (the raw `messageText`
slice between the markers): width `sl` for every non-final chunk, the
remaining tail for the final one. -/
def chunkBody (messageText : List Char) (sl N i : Nat) : List Char :=
  if i + 1 < N then goSlice messageText (sl * i) (sl * i + sl)
  else messageText.drop (sl * i)

/-- The chunk count computed by `splitUserMessage` for a message of
`len` bytes under budget `sl`: `len / sl`, plus one when the division
truncated. -/
def partCountFor (len sl : Nat) : Nat :=
  if (len / sl) * sl < len then len / sl + 1 else len / sl

/-- The tail of `splitUserMessage` once the budget has been resolved to
the non-negative byte count `sl` (used to relate the `Int`-typed budget
arithmetic of the source to `Nat` reasoning). -/
def splitCore (messageText : List Char) (sl : Nat) : List (List Char) :=
  if messageText.length ≤ sl then
    [messageText]
  else
    (List.range (partCountFor messageText.length sl)).map fun i =>
      joinNL (chunkMessageLines messageText sl (partCountFor messageText.length sl) i)

/-! ## Constants shared by `server.go` and `config_tasks.go` -/

def openaiMessageMaxLen : Nat := 9000

def defaultSystemMessage : String :=
  "You are an experienced software developer. You will act as a reviewer for a GitHub Pull Request, and you should answer by markdown format."

def defaultPromte : String :=
  "Please identify potential problems and give some fixing suggestions."

def defaultPrPatchIntroducePromte : String :=
  "This is the diff for the pull request:"

/-! ## Data model of `server.go` -/

/-- The fields of `github.PullRequest` the dispatch engine reads, flattened:
`Title`, `Body`, `User.Login`, `Base.Ref` and the names of `Labels`. -/
structure PullRequest where
  title : String
  body : String
  userLogin : String
  baseRef : String
  labels : List String
deriving DecidableEq, Repr

/-- `TaskConfig` of `server.go` (the fields the dispatch reads). -/
structure TaskConfig where
  name : String
  systemMessage : String
  userPrompt : String
  patchIntroducePrompt : String
  outputStaticHeadNote : String
deriving DecidableEq, Repr

/-- One choice of a chat-completion response (its message content). -/
structure ChatChoice where
  content : String
deriving DecidableEq, Repr

/-- A chat-completion response: its list of choices. -/
structure ChatResponse where
  choices : List ChatChoice
deriving DecidableEq, Repr

/-- The completion backend, as the dispatch sees it: a function from the
(system message, user message) pair of `CreateChatCompletion` to either a
transport error or a response. -/
abbrev ChatBackend : Type := String → String → Except String ChatResponse

/-- `sendMessageToChatGPTServer` from `server.go`: an error from the
backend is wrapped and propagated; a response with at least one choice
yields the last choice's content; a response with zero choices yields
`("", nil)` — the empty string with no error. -/
def sendMessageToChatGPTServer (chat : ChatBackend) (systemMessage userMessage : String) :
    Except String String :=
  match chat systemMessage userMessage with
  | Except.error e => Except.error ("ChatCompletion error: " ++ e)
  | Except.ok resp =>
    match resp.choices.getLast? with
    | some c => Except.ok c.content
    | none => Except.ok ""

/-- The per-task user message assembled by `taskRun` (`strings.Join` of the
prompt, PR title, PR description and fenced diff). -/
def taskMessage (task : TaskConfig) (pr : PullRequest) (patch : String) : String :=
  String.intercalate "\n"
    [task.userPrompt,
     "This is the pr title:",
     "```text",
     pr.title,
     "```",
     "These are the pr description:",
     "```text",
     pr.body,
     "```",
     task.patchIntroducePrompt,
     "```diff",
     patch,
     "```"]

/-- The fixed failure notice `taskRun` posts when the completion call
returns an error. -/
def failureNotice : String := "Sorry, failed to send message to OpenAI server!"

/-- The fixed notice `handle` posts when the diff exceeds
`openaiMessageMaxLen`. -/
def tooLargeNotice : String := "I Skip it since changed size is too large"

/-- The text `taskRun` of `server.go` passes to `createComment`: the
failure notice when the completion call errors, otherwise the response
(prefixed by `OutputStaticHeadNote` when that is non-empty).  The
outcome of the `createComment` call itself — whose error `taskRun`
returns to `handle` — is modelled separately by the comment sink of
`runTasksFallible`. -/
def taskRun (chat : ChatBackend) (task : TaskConfig) (pr : PullRequest) (patch : String) :
    String :=
  match sendMessageToChatGPTServer chat task.systemMessage (taskMessage task pr patch) with
  | Except.error _ => failureNotice
  | Except.ok resp =>
    if task.outputStaticHeadNote ≠ "" then task.outputStaticHeadNote ++ "\n" ++ resp
    else resp

/-- The text-level outcome of one dispatch: the comments created, in
order, and the number of completion-backend calls made. -/
structure DispatchLog where
  comments : List String
  chatCalls : Nat
deriving DecidableEq, Repr

/-- The full trace of one dispatch against a fallible comment sink: the
texts submitted to `CreateComment` in call order, the comments the sink
actually accepted (created), the number of completion-backend calls,
and the error value `handle` returns. -/
structure DispatchTrace where
  submitted : List String
  created : List String
  chatCalls : Nat
  result : Except String Unit
deriving DecidableEq, Repr

/-- The per-task loop of `handle` from `server.go` with the GitHub
client's fallible `CreateComment` explicit: `sink k` is the result of
the `k`-th `CreateComment` call of this dispatch.  Each task makes its
completion call, computes its comment text, and submits it; `taskRun`
returns `createComment`'s error, and on a non-nil error `handle`
returns it — the remaining tasks do not run. -/
def runTasksFallible (chat : ChatBackend) (pr : PullRequest) (patch : String)
    (sink : Nat → Except String Unit) : List TaskConfig → Nat → DispatchTrace
  | [], _ => ⟨[], [], 0, Except.ok ()⟩
  | t :: ts, k =>
    let comment := taskRun chat t pr patch
    match sink k with
    | Except.error e => ⟨[comment], [], 1, Except.error e⟩
    | Except.ok _ =>
      let rest := runTasksFallible chat pr patch sink ts (k + 1)
      ⟨comment :: rest.submitted, comment :: rest.created,
       1 + rest.chatCalls, rest.result⟩

/-- `getTasks` from `server.go`: an empty foreword (lifecycle trigger)
returns the configured tasks for the repository; a non-empty foreword
(comment trigger) synthesizes the single `user-comment-trigger` task. The
configured task map is passed in as the association list `cfgTasks`
(its Go iteration order). -/
def getTasks (cfgTasks : List (String × TaskConfig)) (foreword : String) :
    List (String × TaskConfig) :=
  if foreword = "" then cfgTasks
  else
    [("user-comment-trigger",
      { name := ""
        systemMessage := defaultSystemMessage
        userPrompt := foreword
        patchIntroducePrompt := defaultPrPatchIntroducePromte
        outputStaticHeadNote := "" })]

/-- `handle` from `server.go` against a fallible comment sink, starting
after the diff has been fetched: the too-large gate submits exactly the
fixed notice (no backend call, no task runs) and returns the
submission's outcome; otherwise the selected tasks run in order until
done or until a comment-creation error aborts the loop. -/
def handleFallible (chat : ChatBackend) (cfgTasks : List (String × TaskConfig))
    (foreword : String) (pr : PullRequest) (diff : String)
    (sink : Nat → Except String Unit) : DispatchTrace :=
  if openaiMessageMaxLen < diff.length then
    match sink 0 with
    | Except.error e => ⟨[tooLargeNotice], [], 0, Except.error e⟩
    | Except.ok _ => ⟨[tooLargeNotice], [tooLargeNotice], 0, Except.ok ()⟩
  else
    runTasksFallible chat pr diff sink ((getTasks cfgTasks foreword).map Prod.snd) 0

/-- The comment sink that accepts every submission. -/
def okSink : Nat → Except String Unit := fun _ => Except.ok ()

/-- The text-level view of the per-task loop: `runTasksFallible` under
the all-accepting sink, keeping the created comments and the
backend-call count. -/
def runTasks (chat : ChatBackend) (pr : PullRequest) (patch : String)
    (l : List TaskConfig) : DispatchLog :=
  ⟨(runTasksFallible chat pr patch okSink l 0).created,
   (runTasksFallible chat pr patch okSink l 0).chatCalls⟩

/-- The text-level view of `handle`: the dispatch under the
all-accepting sink. -/
def handle (chat : ChatBackend) (cfgTasks : List (String × TaskConfig))
    (foreword : String) (pr : PullRequest) (diff : String) : DispatchLog :=
  ⟨(handleFallible chat cfgTasks foreword pr diff okSink).created,
   (handleFallible chat cfgTasks foreword pr diff okSink).chatCalls⟩

/-! ## Artifact fetcher (`getPullRequestDiff` of `server.go`) -/

/-- Outcome of the fetch loop in a total embedding:
`ok` — a diff was returned unchanged; `err` — an upstream error was
propagated; `crash` — the unguarded `diff[0]` indexed an empty payload
(index out of range); `fuelOut` — the scripted upstream responses were
exhausted, standing in for the loop's nontermination. -/
inductive FetchOutcome where
  | ok (diff : List Char)
  | err (e : String)
  | crash
  | fuelOut
deriving DecidableEq, Repr

/-- `getPullRequestDiff` from `server.go`, run against the script of
successive upstream `GetPullRequestDiff` results (one entry per attempt;
the 5-second sleep between attempts has no observable effect here).  An
error stops the loop; a payload whose first byte is `'{'` causes a retry;
any other payload is returned unchanged.  The unguarded `diff[0]` is
total here: an empty payload yields `crash`. -/
def getPullRequestDiff : List (Except String (List Char)) → FetchOutcome
  | [] => FetchOutcome.fuelOut
  | Except.error e :: _ => FetchOutcome.err e
  | Except.ok diff :: rest =>
    match diff with
    | [] => FetchOutcome.crash
    | c :: _ => if c = '{' then getPullRequestDiff rest else FetchOutcome.ok diff

/-! ## Task configuration (`config_tasks.go`) -/

/-- `Task` from `config_tasks.go` (raw pattern strings; the compiled
regexps are derived data and are represented by the strings together with
a matching oracle, see `shouldRunTaskForPR`). -/
structure Task where
  description : String
  systemMessage : String
  userPrompt : String
  patchIntroducePrompt : String
  outputStaticHeadNote : String
  maxResponseTokens : Nat
  alwaysRun : Bool
  skipAuthors : List String
  skipBrancheRegs : List String
  skipLabelRegs : List String
deriving DecidableEq, Repr

/-- `RepoTasks`: the task map for one repo or org, as an association
list. -/
abbrev RepoTasks : Type := List (String × Task)

/-- `TasksConfig`: the `org|repo → task-name → task` tree, as an
association list. -/
abbrev TasksConfig : Type := List (String × RepoTasks)

/-- `TaskAgent.TasksFor` from `config_tasks.go`: the `"org/repo"` entry
when present, else the `org` entry, else `nil` (the empty task map — no
error, no synthesized default). -/
def TasksFor (config : TasksConfig) (org repo : String) : RepoTasks :=
  match config.lookup (org ++ "/" ++ repo) with
  | some repoTasks => repoTasks
  | none =>
    match config.lookup org with
    | some orgTasks => orgTasks
    | none => []

/-- Modelled from the spec: `shouldRunTaskForPR` is not under `src/` —
only its test (`Test_shouldRunTaskForPR`) is.  Per §4.2/§8 a task runs
for a lifecycle event iff `alwaysRun` is true and none of the three skip
rules fires: author login in `skipAuthors` (exact match), base branch
matching any `skipBrancheRegs` entry, or any PR label matching any
`skipLabelRegs` entry.  Regular-expression matching is abstracted by the
oracle `regexMatch pattern text`. -/
def shouldRunTaskForPR (regexMatch : String → String → Bool) (task : Task)
    (pr : PullRequest) : Bool :=
  task.alwaysRun &&
    !(task.skipAuthors.contains pr.userLogin) &&
    !(task.skipBrancheRegs.any fun re => regexMatch re pr.baseRef) &&
    !(task.skipLabelRegs.any fun re => pr.labels.any fun lbl => regexMatch re lbl)

/-- Modelled from the spec: the lifecycle-triggered selection (§4.2) —
the tasks configured for (org, repo), filtered by `shouldRunTaskForPR`. -/
def selectTasksForPR (regexMatch : String → String → Bool) (config : TasksConfig)
    (org repo : String) (pr : PullRequest) : RepoTasks :=
  (TasksFor config org repo).filter fun nt => shouldRunTaskForPR regexMatch nt.2 pr

/-! ## Config store (`ConfigAgent.Reload`) -/

/-- `Config` of the config agent: the `org|repo → task-name → TaskConfig`
tree, as an association list. -/
abbrev Config : Type := List (String × List (String × TaskConfig))

/-- `ConfigAgent.Reload`: `os.ReadFile` is modelled by its result
`readResult`, `json.Unmarshal` by the function `unmarshal`.  The stored
configuration is threaded explicitly: the result pairs the stored
configuration after the call with the returned error.  Only a fully
successful read-and-parse swaps the stored configuration. -/
def Reload (stored : Config) (file : String) (readResult : Except String String)
    (unmarshal : String → Except String Config) : Config × Except String Unit :=
  match readResult with
  | Except.error e =>
    (stored, Except.error ("could no load config file " ++ file ++ ": " ++ e))
  | Except.ok data =>
    match unmarshal data with
    | Except.error e =>
      (stored, Except.error ("could not unmarshal JSON config: " ++ e))
    | Except.ok config => (config, Except.ok ())

/-! ## Concrete fixtures used by the witnesses -/

/-- A task with `alwaysRun = true` and no skip rules. -/
def taskAlways : Task :=
  { description := ""
    systemMessage := "s"
    userPrompt := "review it"
    patchIntroducePrompt := defaultPrPatchIntroducePromte
    outputStaticHeadNote := ""
    maxResponseTokens := 500
    alwaysRun := true
    skipAuthors := []
    skipBrancheRegs := []
    skipLabelRegs := [] }

/-- A task with `alwaysRun = false` but permissive skip rules. -/
def taskManual : Task :=
  { description := ""
    systemMessage := "s"
    userPrompt := "review it"
    patchIntroducePrompt := defaultPrPatchIntroducePromte
    outputStaticHeadNote := ""
    maxResponseTokens := 500
    alwaysRun := false
    skipAuthors := ["bot1"]
    skipBrancheRegs := ["^main$"]
    skipLabelRegs := ["^wip$"] }

/-- A configuration tree with a repo-scoped and an org-scoped entry. -/
def cfgTree : TasksConfig :=
  [("acme/widget", [("review", taskAlways)]),
   ("acme", [("org-review", taskManual)])]

/-- A configuration tree holding only the `alwaysRun = false` task. -/
def cfgManualOnly : TasksConfig :=
  [("acme/widget", [("review", taskManual)])]

/-- A sample pull request. -/
def prSample : PullRequest :=
  { title := "add feature"
    body := "adds a feature"
    userLogin := "alice"
    baseRef := "feature-abc"
    labels := ["enhancement"] }

/-- A backend that always fails with a transport error. -/
def failChat : ChatBackend := fun _ _ => Except.error "boom"

/-- A backend that returns a response with zero choices. -/
def zeroChoiceChat : ChatBackend := fun _ _ => Except.ok ⟨[]⟩

/-- A backend that succeeds for system message `"s1"` and fails for every
other system message. -/
def mixedChat : ChatBackend := fun sys _ =>
  if sys = "s1" then Except.ok ⟨[⟨"looks good"⟩]⟩ else Except.error "boom"

/-- A backend that always succeeds with one choice. -/
def okChat : ChatBackend := fun _ _ => Except.ok ⟨[⟨"looks good"⟩]⟩

/-- A comment sink that rejects every submission with a 502. -/
def failSink : Nat → Except String Unit := fun _ => Except.error "502"

/-- A `server.go` task with system message `"s1"`. -/
def taskCfgOne : TaskConfig :=
  { name := "one"
    systemMessage := "s1"
    userPrompt := "u1"
    patchIntroducePrompt := "p1"
    outputStaticHeadNote := "" }

/-- A `server.go` task with system message `"s2"`. -/
def taskCfgTwo : TaskConfig :=
  { name := "two"
    systemMessage := "s2"
    userPrompt := "u2"
    patchIntroducePrompt := "p2"
    outputStaticHeadNote := "" }

/-- Two configured tasks, in iteration order. -/
def cfgPair : List (String × TaskConfig) :=
  [("one", taskCfgOne), ("two", taskCfgTwo)]

/-- A stored configuration snapshot. -/
def cfgStored : Config := [("acme/widget", [("review", taskCfgOne)])]

/-- An unmarshal function that rejects every document. -/
def badUnmarshal : String → Except String Config :=
  fun _ => Except.error "invalid character"

/-- A diff one byte over the `openaiMessageMaxLen` ceiling. -/
def bigDiff : String := String.mk (List.replicate 9001 'a')

/-! ## C10 — unknown model: empty result, no error -/

/-- C10: for every model name absent from the `maxTokens` table the
computed budget is negative (the Go map yields the zero value `0`, and
the positive margin is subtracted), so `splitUserMessage` returns the
empty sequence for every message — even one short enough for a single
chunk — and its return type offers no error channel to the caller. -/
theorem splitUserMessage_unknown_model (model : String)
    (hm : maxTokens.lookup model = none) (messageText : List Char) :
    splitUserMessage messageText model = [] := by
  unfold splitUserMessage
  rw [hm]
  simp [splitorHoldingByteCount]

/-- Witness for C10 at the concrete model name `"unknown-model"`. -/
theorem splitUserMessage_unknown_model_witness :
    splitUserMessage ['h', 'i'] "unknown-model" = [] :=
  splitUserMessage_unknown_model "unknown-model" (by decide) ['h', 'i']

/-! ## C6 — repo entry shadows org entry; neither is a no-op -/

/-- C6: lifecycle-triggered task lookup returns the task set stored under
the `"org/repo"` key when that entry exists; otherwise the set stored
under the org key; and when neither exists, the empty task set — not an
error and not a synthesized default task. -/
theorem TasksFor_layering (config : TasksConfig) (org repo : String) :
    (∀ ts, config.lookup (org ++ "/" ++ repo) = some ts →
      TasksFor config org repo = ts) ∧
    (config.lookup (org ++ "/" ++ repo) = none →
      (∀ ts, config.lookup org = some ts → TasksFor config org repo = ts) ∧
      (config.lookup org = none → TasksFor config org repo = [])) := by
  refine ⟨fun ts h => ?_, fun h => ⟨fun ts h2 => ?_, fun h2 => ?_⟩⟩ <;>
    simp [TasksFor, h]
  · simp [h2]
  · simp [h2]

/-- Witness for C6 on a tree with one repo entry and one org entry:
the repo entry is returned for its repo, the org entry for any other
repo of the org, and an unknown org yields the empty set. -/
theorem TasksFor_layering_witness :
    TasksFor cfgTree "acme" "widget" = [("review", taskAlways)] ∧
    TasksFor cfgTree "acme" "gadget" = [("org-review", taskManual)] ∧
    TasksFor cfgTree "umbrella" "gadget" = [] := by
  refine ⟨(TasksFor_layering cfgTree "acme" "widget").1 _ (by decide),
    ((TasksFor_layering cfgTree "acme" "gadget").2 (by decide)).1 _ (by decide),
    ((TasksFor_layering cfgTree "umbrella" "gadget").2 (by decide)).2 (by decide)⟩

/-! ## C7 — a failed reload never touches the stored configuration -/

/-- C7: whenever `Reload` fails — the file could not be read, or the
document does not unmarshal — the stored configuration after the attempt
equals the configuration before it, so a subsequent read still returns
the prior snapshot. -/
theorem Reload_failure_preserves_snapshot (stored : Config) (file : String)
    (readResult : Except String String)
    (unmarshal : String → Except String Config) (e : String)
    (h : (Reload stored file readResult unmarshal).2 = Except.error e) :
    (Reload stored file readResult unmarshal).1 = stored := by
  rcases readResult with e' | data
  · simp [Reload]
  · rcases hu : unmarshal data with e'' | cfg
    · simp [Reload, hu]
    · exfalso
      simp [Reload, hu] at h

/-- Witness for C7: a malformed document is rejected and the stored
snapshot survives. -/
theorem Reload_failure_preserves_snapshot_witness :
    (Reload cfgStored "cfg.json" (Except.ok "junk") badUnmarshal).1 = cfgStored :=
  Reload_failure_preserves_snapshot cfgStored "cfg.json" (Except.ok "junk")
    badUnmarshal "could not unmarshal JSON config: invalid character" rfl

/-! ## C2 — `alwaysRun = false` is never selected on lifecycle triggers -/

/-- C2: a task with `alwaysRun = false` is never part of a
lifecycle-triggered selection (PR opened / synchronize / reopened, i.e.
no explicit comment instruction), whatever the regular-expression oracle
and hence whatever any skip rule would have decided. -/
theorem alwaysRun_false_never_selected (regexMatch : String → String → Bool)
    (config : TasksConfig) (org repo : String) (pr : PullRequest)
    (name : String) (task : Task) (h : task.alwaysRun = false) :
    shouldRunTaskForPR regexMatch task pr = false ∧
    (name, task) ∉ selectTasksForPR regexMatch config org repo pr := by
  have hrun : shouldRunTaskForPR regexMatch task pr = false := by
    simp [shouldRunTaskForPR, h]
  refine ⟨hrun, fun hmem => ?_⟩
  have := List.of_mem_filter hmem
  rw [hrun] at this
  exact Bool.false_ne_true this

/-- Witness for C2: the `alwaysRun = false` task configured for
`acme/widget` is not selected for a lifecycle event, under an oracle for
which none of its skip rules would match. -/
theorem alwaysRun_false_never_selected_witness :
    shouldRunTaskForPR (fun _ _ => false) taskManual prSample = false ∧
    ("review", taskManual) ∉
      selectTasksForPR (fun _ _ => false) cfgManualOnly "acme" "widget" prSample :=
  alwaysRun_false_never_selected (fun _ _ => false) cfgManualOnly "acme" "widget"
    prSample "review" taskManual rfl

/-! ## C4 — oversized artifact: one fixed comment, nothing else runs -/

/-- C4: when the fetched diff exceeds the global `openaiMessageMaxLen`
ceiling (9000 bytes), `handle` posts exactly one comment — the fixed
too-large notice — makes zero completion-backend calls, and runs zero
tasks for the event. -/
theorem handle_too_large (chat : ChatBackend)
    (cfgTasks : List (String × TaskConfig)) (foreword : String)
    (pr : PullRequest) (diff : String)
    (h : openaiMessageMaxLen < diff.length) :
    handle chat cfgTasks foreword pr diff =
      { comments := [tooLargeNotice], chatCalls := 0 } := by
  unfold handle handleFallible okSink
  rw [if_pos h]

/-- Witness for C4 at a concrete 9001-byte diff. -/
theorem handle_too_large_witness :
    handle failChat cfgPair "" prSample bigDiff =
      { comments := [tooLargeNotice], chatCalls := 0 } :=
  handle_too_large failChat cfgPair "" prSample bigDiff
    (by show (9000 : Nat) < (List.replicate 9001 'a').length
        rw [List.length_replicate]
        omega)

/-! ## C5 — retry exactly while the payload is JSON-prefixed -/

/-- C5: against any script of upstream responses whose first `pre`
attempts all return payloads starting with `'{'`, the fetcher retries
past all of them; the next attempt decides the result — an upstream
error is propagated as is, and a payload not starting with `'{'` is
returned unchanged (whatever responses would have followed).  The
5-second wait between attempts is wall-clock behaviour with no effect on
the returned value, and termination needs exactly the stated
precondition: some attempt errs or yields a non-`'{'` payload. -/
theorem getPullRequestDiff_retry_policy
    (pre : List (Except String (List Char)))
    (r : Except String (List Char)) (rest : List (Except String (List Char)))
    (hpre : ∀ x ∈ pre, ∃ d, x = Except.ok ('{' :: d)) :
    (∀ e, r = Except.error e →
      getPullRequestDiff (pre ++ r :: rest) = FetchOutcome.err e) ∧
    (∀ c d, r = Except.ok (c :: d) → c ≠ '{' →
      getPullRequestDiff (pre ++ r :: rest) = FetchOutcome.ok (c :: d)) := by
  induction pre with
  | nil =>
    refine ⟨fun e he => ?_, fun c d hr hc => ?_⟩
    · rw [he]
      rfl
    · rw [hr]
      simp [getPullRequestDiff, hc]
  | cons x xs ih =>
    obtain ⟨d, rfl⟩ := hpre x (by simp)
    have ih' := ih (fun y hy => hpre y (by simp [hy]))
    refine ⟨fun e he => ?_, fun c d' hr hc => ?_⟩
    · rw [List.cons_append]
      simpa [getPullRequestDiff] using ih'.1 e he
    · rw [List.cons_append]
      simpa [getPullRequestDiff] using ih'.2 c d' hr hc

/-- Witness for C5: one `'{'`-prefixed payload is retried past, and the
following diff payload is returned unchanged. -/
theorem getPullRequestDiff_retry_policy_witness :
    getPullRequestDiff [Except.ok ['{'], Except.ok ['d', 'i']] =
      FetchOutcome.ok ['d', 'i'] := by
  have h := (getPullRequestDiff_retry_policy [Except.ok ['{']]
    (Except.ok ['d', 'i']) []
    (fun x hx => ⟨[], by simpa using hx⟩)).2 'd' ['i'] rfl (by decide)
  simpa using h

/-! ## C9 — the unguarded `diff[0]` and its non-emptiness precondition -/

/-- An empty successful payload anywhere before the first decisive
response makes the fetch loop crash on `diff[0]`. -/
lemma getPullRequestDiff_ne_crash
    (script : List (Except String (List Char)))
    (h : ∀ d, Except.ok d ∈ script → d ≠ []) :
    getPullRequestDiff script ≠ FetchOutcome.crash := by
  induction script with
  | nil => simp [getPullRequestDiff]
  | cons x rest ih =>
    match x with
    | Except.error e => simp [getPullRequestDiff]
    | Except.ok [] => exact absurd rfl (h [] (by simp))
    | Except.ok (c :: cs) =>
      by_cases hc : c = '{'
      · simpa [getPullRequestDiff, hc] using
          ih (fun d hd => h d (by simp [hd]))
      · simp [getPullRequestDiff, hc]

/-- C9: the fetch loop is total only under the precondition that every
successful upstream response is non-empty.  At the concrete script whose
first attempt returns an empty payload with no error, the unguarded
`diff[0]` indexes out of range (the `crash` branch of the total
embedding); and under the non-emptiness precondition the `crash` branch
is unreachable for every script. -/
theorem getPullRequestDiff_empty_payload :
    getPullRequestDiff [Except.ok []] = FetchOutcome.crash ∧
    ∀ script : List (Except String (List Char)),
      (∀ d, Except.ok d ∈ script → d ≠ []) →
      getPullRequestDiff script ≠ FetchOutcome.crash :=
  ⟨rfl, getPullRequestDiff_ne_crash⟩

/-- Witness for C9's guarded half at a concrete non-empty script. -/
theorem getPullRequestDiff_empty_payload_witness :
    getPullRequestDiff [Except.ok ['d']] ≠ FetchOutcome.crash :=
  getPullRequestDiff_empty_payload.2 [Except.ok ['d']]
    (fun d hd => by simp at hd; simp [hd])

/-! ## C1 — one comment per selected task; which failures are isolated -/

/-- Under a sink that accepts every submission, the loop submits and
creates the comments of the tasks in order (each computed from that task
alone), makes one backend call per task, and returns nil. -/
lemma runTasksFallible_all_ok (chat : ChatBackend) (pr : PullRequest)
    (patch : String) (sink : Nat → Except String Unit)
    (hsink : ∀ k, sink k = Except.ok ()) :
    ∀ (l : List TaskConfig) (k : Nat),
      runTasksFallible chat pr patch sink l k =
        ⟨l.map (fun t => taskRun chat t pr patch),
         l.map (fun t => taskRun chat t pr patch),
         l.length, Except.ok ()⟩ := by
  intro l
  induction l with
  | nil => intro k; rfl
  | cons t ts ih =>
    intro k
    unfold runTasksFallible
    rw [hsink k, ih (k + 1)]
    simp [Nat.add_comm]

/-- Counterexample to C1 as stated: a dispatch with two selected tasks
whose backend calls would both succeed, but whose first comment-creation
call fails (`CreateComment` returns an error).  `taskRun` returns that
error and `handle` aborts: no comment is created at all, only one
backend call is made, and the second task never runs nor produces a
comment — a failure while running one task did prevent the remaining
task. -/
theorem handle_comment_failure_counterexample :
    (getTasks cfgPair "").length = 2 ∧
    (handleFallible okChat cfgPair "" prSample "dd" failSink).submitted =
      ["looks good"] ∧
    (handleFallible okChat cfgPair "" prSample "dd" failSink).created = [] ∧
    (handleFallible okChat cfgPair "" prSample "dd" failSink).chatCalls = 1 ∧
    (handleFallible okChat cfgPair "" prSample "dd" failSink).result =
      Except.error "502" := by
  decide

/-- C1 as amended: for every event whose diff passed the size gate and
whose task selection is non-empty, provided every comment-creation call
succeeds, the dispatch loop creates exactly one comment per selected
task — the `i`-th comment is a function of the `i`-th task alone, so a
completion-backend failure in one task cannot change or suppress another
task's comment — and every comment is either the fixed failure notice
or the task's successful response text (head note included when
configured).  (Without that proviso a comment-creation failure in one
task aborts the loop, leaving the remaining tasks unrun — the
counterexample.) -/
theorem handle_one_comment_per_task (chat : ChatBackend)
    (cfgTasks : List (String × TaskConfig)) (foreword : String)
    (pr : PullRequest) (diff : String) (sink : Nat → Except String Unit)
    (hsize : diff.length ≤ openaiMessageMaxLen)
    (hne : getTasks cfgTasks foreword ≠ [])
    (hsink : ∀ k, sink k = Except.ok ()) :
    (handleFallible chat cfgTasks foreword pr diff sink).created =
      ((getTasks cfgTasks foreword).map Prod.snd).map
        (fun t => taskRun chat t pr diff) ∧
    (handleFallible chat cfgTasks foreword pr diff sink).created.length =
      (getTasks cfgTasks foreword).length ∧
    (handleFallible chat cfgTasks foreword pr diff sink).created ≠ [] ∧
    (handleFallible chat cfgTasks foreword pr diff sink).result = Except.ok () ∧
    ∀ t : TaskConfig,
      taskRun chat t pr diff = failureNotice ∨
      ∃ resp,
        sendMessageToChatGPTServer chat t.systemMessage (taskMessage t pr diff) =
          Except.ok resp ∧
        taskRun chat t pr diff =
          if t.outputStaticHeadNote ≠ "" then t.outputStaticHeadNote ++ "\n" ++ resp
          else resp := by
  have hbranch : handleFallible chat cfgTasks foreword pr diff sink =
      runTasksFallible chat pr diff sink
        ((getTasks cfgTasks foreword).map Prod.snd) 0 := by
    unfold handleFallible
    rw [if_neg (by omega)]
  have hrun := runTasksFallible_all_ok chat pr diff sink hsink
    ((getTasks cfgTasks foreword).map Prod.snd) 0
  refine ⟨by rw [hbranch, hrun], ?_, ?_, by rw [hbranch, hrun], ?_⟩
  · rw [hbranch, hrun]
    simp
  · rw [hbranch, hrun]
    simpa using hne
  · intro t
    unfold taskRun
    rcases hs : sendMessageToChatGPTServer chat t.systemMessage (taskMessage t pr diff)
      with e | resp
    · exact Or.inl rfl
    · exact Or.inr ⟨resp, rfl, rfl⟩

/-- Witness for C1 as amended: two configured tasks, an all-accepting
sink, the first backend call succeeds and the second fails — the
dispatch creates exactly two comments, the success text then the
failure notice. -/
theorem handle_one_comment_per_task_witness :
    (handleFallible mixedChat cfgPair "" prSample "dd" okSink).created =
      ["looks good", failureNotice] := by
  have h := (handle_one_comment_per_task mixedChat cfgPair "" prSample "dd"
    okSink (by decide) (by decide) (fun _ => rfl)).1
  rw [h]
  decide

/-! ## C8 — a zero-choices response is not treated as a failure -/

/-- Counterexample to C8 as stated: at a backend returning a response
with zero choices, `taskRun` posts the empty success-path comment, not
the fixed failure notice. -/
theorem taskRun_zero_choices_counterexample :
    taskRun zeroChoiceChat taskCfgOne prSample "d" = "" ∧
    taskRun zeroChoiceChat taskCfgOne prSample "d" ≠ failureNotice := by
  decide

/-- C8 as amended: when the completion-backend call returns an error the
dispatch posts the fixed failure notice for that task; but a response
with zero choices is not a `CompletionError` — `sendMessageToChatGPTServer`
returns the empty string with a nil error, and the dispatch posts it
through the success path (prefixed by the head note when configured). -/
theorem taskRun_failure_and_zero_choices (chat : ChatBackend)
    (task : TaskConfig) (pr : PullRequest) (patch : String) :
    (∀ e, chat task.systemMessage (taskMessage task pr patch) = Except.error e →
      taskRun chat task pr patch = failureNotice) ∧
    (chat task.systemMessage (taskMessage task pr patch) = Except.ok ⟨[]⟩ →
      sendMessageToChatGPTServer chat task.systemMessage (taskMessage task pr patch) =
        Except.ok "" ∧
      taskRun chat task pr patch =
        if task.outputStaticHeadNote ≠ "" then task.outputStaticHeadNote ++ "\n" ++ ""
        else "") := by
  constructor
  · intro e he
    unfold taskRun sendMessageToChatGPTServer
    rw [he]
  · intro hok
    have hsend : sendMessageToChatGPTServer chat task.systemMessage
        (taskMessage task pr patch) = Except.ok "" := by
      unfold sendMessageToChatGPTServer
      rw [hok]
      rfl
    exact ⟨hsend, by unfold taskRun; rw [hsend]⟩

/-- Witness for C8's amended statement: a transport error yields the
failure notice; a zero-choices response yields the empty success
comment. -/
theorem taskRun_failure_and_zero_choices_witness :
    taskRun failChat taskCfgTwo prSample "d" = failureNotice ∧
    taskRun zeroChoiceChat taskCfgTwo prSample "d" = "" := by
  refine ⟨(taskRun_failure_and_zero_choices failChat taskCfgTwo prSample "d").1
    "boom" rfl, ?_⟩
  have h := ((taskRun_failure_and_zero_choices zeroChoiceChat taskCfgTwo prSample
    "d").2 rfl).2
  simpa using h

/-! ## C3 — chunking correctness -/

/-- `goSlice` from a position to the end of the message is `List.drop`. -/
lemma goSlice_to_length (msg : List Char) (a : Nat) :
    goSlice msg a msg.length = msg.drop a := by
  unfold goSlice
  rw [← List.length_drop, List.take_length]

/-- `goSlice` over a window of width `w` is `take w` after `drop`. -/
lemma goSlice_take (msg : List Char) (a w : Nat) :
    goSlice msg a (a + w) = (msg.drop a).take w := by
  unfold goSlice
  congr 1
  omega

/-- Concatenating the `k` leading width-`sl` slices and the remaining
tail reassembles the message. -/
lemma join_take_slices (msg : List Char) (sl : Nat) :
    ∀ k, (((List.range k).map fun i => (msg.drop (sl * i)).take sl).flatten)
      ++ msg.drop (sl * k) = msg := by
  intro k
  induction k with
  | zero => simp
  | succ k ih =>
    rw [List.range_succ, List.map_append, List.flatten_append, List.append_assoc]
    simp only [List.map_cons, List.map_nil, List.flatten_cons, List.flatten_nil,
      List.append_nil]
    have hd : msg.drop (sl * (k + 1)) = (msg.drop (sl * k)).drop sl := by
      rw [List.drop_drop]
      congr 1
    rw [hd, List.take_append_drop]
    exact ih

/-- The chunk count computed by the source equals `⌈len / sl⌉`, written
as `(len + sl - 1) / sl`. -/
lemma partCountFor_eq_ceil (len sl : Nat) (hsl : 0 < sl) (hlen : sl < len) :
    partCountFor len sl = (len + sl - 1) / sl := by
  have hmod := Nat.div_add_mod len sl
  have hr : len % sl < sl := Nat.mod_lt _ hsl
  have key : ∀ a b, b < sl → (sl * a + b) / sl = a := by
    intro a b hb
    rw [Nat.mul_add_div hsl, Nat.div_eq_of_lt hb]
    omega
  unfold partCountFor
  rcases Nat.eq_zero_or_pos (len % sl) with h0 | hpos
  · have hc : ¬ ((len / sl) * sl < len) := by
      rw [Nat.mul_comm (len / sl) sl]
      omega
    rw [if_neg hc]
    have heq : len + sl - 1 = sl * (len / sl) + (sl - 1) := by omega
    rw [heq, key _ _ (by omega)]
  · have hc : (len / sl) * sl < len := by
      rw [Nat.mul_comm (len / sl) sl]
      omega
    rw [if_pos hc]
    have hmul : sl * (len / sl + 1) = sl * (len / sl) + sl := by ring
    have heq : len + sl - 1 = sl * (len / sl + 1) + (len % sl - 1) := by omega
    rw [heq, key _ _ (by omega)]

/-- The body slices of the `N` chunks concatenate to the message. -/
lemma join_chunkBody (msg : List Char) (sl N : Nat) (hN : 1 ≤ N) :
    ((List.range N).map (chunkBody msg sl N)).flatten = msg := by
  obtain ⟨M, rfl⟩ : ∃ M, N = M + 1 := ⟨N - 1, by omega⟩
  rw [List.range_succ, List.map_append, List.flatten_append]
  have hmap : (List.range M).map (chunkBody msg sl (M + 1)) =
      (List.range M).map fun i => (msg.drop (sl * i)).take sl := by
    apply List.map_congr_left
    intro i hi
    have hiM : i + 1 < M + 1 := by
      have := List.mem_range.mp hi
      omega
    simp only [chunkBody]
    rw [if_pos hiM, goSlice_take]
  have hlast : chunkBody msg sl (M + 1) M = msg.drop (sl * M) := by
    simp only [chunkBody]
    rw [if_neg (by omega)]
  rw [hmap]
  simp only [List.map_cons, List.map_nil, List.flatten_cons, List.flatten_nil,
    List.append_nil]
  rw [hlast]
  exact join_take_slices msg sl M

/-- Resolving the `Int`-typed budget of `splitUserMessage` for a model
present in the table: the split proceeds with the `Nat` budget
`m - splitorHoldingByteCount`. -/
lemma splitUserMessage_of_lookup (model : String) (m : Nat)
    (hm : maxTokens.lookup model = some m)
    (hmargin : splitorHoldingByteCount ≤ m) (msg : List Char) :
    splitUserMessage msg model = splitCore msg (m - splitorHoldingByteCount) := by
  unfold splitUserMessage splitCore partCountFor
  rw [hm]
  simp only [Option.getD_some]
  have h1 : ¬ ((m : Int) - (splitorHoldingByteCount : Int) < 0) := by omega
  rw [if_neg h1]
  have h2 : ((m : Int) - (splitorHoldingByteCount : Int)).toNat =
      m - splitorHoldingByteCount := by omega
  rw [h2]

/-- C3: for a model present in the `maxTokens` table with budget
`sl = maxTokens[model] - splitorHoldingByteCount`: a message of at most
`sl` bytes yields exactly one chunk equal to the input; a longer message
yields `⌈len / sl⌉` chunks, whose body slices concatenate — markers
stripped — to exactly the original message, where chunk `i` (0-based)
carries the `[START PART i+1/N]` / `[END PART i+1/N]` markers (so the
part numbers ascend strictly), every chunk but the last opens with the
acknowledge-and-wait instruction, and only the last carries the
all-parts-sent line instead. -/
theorem splitUserMessage_chunking (model : String) (m sl : Nat)
    (hm : maxTokens.lookup model = some m)
    (hsl : sl = m - splitorHoldingByteCount)
    (hmargin : splitorHoldingByteCount < m) (msg : List Char) :
    (msg.length ≤ sl → splitUserMessage msg model = [msg]) ∧
    (sl < msg.length →
      ∀ N, N = (msg.length + sl - 1) / sl →
        (splitUserMessage msg model).length = N ∧
        ((List.range N).map (chunkBody msg sl N)).flatten = msg ∧
        ∀ i, i < N →
          (splitUserMessage msg model)[i]? =
            some (if i + 1 < N then
                    (ackLine (partFlag (i + 1) N)).toList ++ '\n' ::
                      ((startMarker (partFlag (i + 1) N)).toList ++ '\n' ::
                        (chunkBody msg sl N i ++ '\n' ::
                          (endMarker (partFlag (i + 1) N)).toList))
                  else
                    (startMarker (partFlag (i + 1) N)).toList ++ '\n' ::
                      (chunkBody msg sl N i ++ '\n' ::
                        ((endMarker (partFlag (i + 1) N)).toList ++ '\n' ::
                          allSentLine.toList)))) := by
  subst hsl
  have hslpos : 0 < m - splitorHoldingByteCount := by omega
  have hbridge := splitUserMessage_of_lookup model m hm (Nat.le_of_lt hmargin) msg
  constructor
  · intro hle
    rw [hbridge]
    unfold splitCore
    rw [if_pos hle]
  · intro hgt N hN
    rw [hbridge]
    unfold splitCore
    rw [if_neg (by omega)]
    have hpc : partCountFor msg.length (m - splitorHoldingByteCount) = N := by
      rw [hN]
      exact partCountFor_eq_ceil msg.length _ hslpos hgt
    rw [hpc]
    have hN1 : 1 ≤ N := by
      rw [hN, Nat.le_div_iff_mul_le hslpos]
      omega
    refine ⟨by simp, join_chunkBody msg _ N hN1, ?_⟩
    intro i hi
    rw [List.getElem?_map, List.getElem?_range hi]
    simp only [Option.map_some']
    congr 1
    by_cases hil : i + 1 < N
    · have hnl : ¬ (i = N - 1) := by omega
      rw [if_pos hil]
      simp only [chunkMessageLines, chunkBody]
      simp only [if_neg hnl, if_pos hil]
      simp only [List.cons_append, List.nil_append, List.append_nil]
      rfl
    · have hlt : i = N - 1 := by omega
      rw [if_neg hil]
      simp only [chunkMessageLines, chunkBody]
      simp only [if_pos hlt, if_neg hil]
      simp only [List.cons_append, List.nil_append, List.append_nil]
      rw [goSlice_to_length]
      rfl

/-- Witness for C3 at the model `"gpt-3.5-turbo"` (budget
`4096 - splitorHoldingByteCount`) and a message that fits in one
chunk. -/
theorem splitUserMessage_chunking_witness :
    splitUserMessage ['h', 'i'] "gpt-3.5-turbo" = [['h', 'i']] :=
  (splitUserMessage_chunking "gpt-3.5-turbo" 4096 3996 (by decide) (by decide)
    (by decide) ['h', 'i']).1 (by decide)

end Chatgpt
